import Mathlib

/-!
Verification development for the otel-log repository.

Part 1 embeds the executable control flow of
`src/python/src/example_otel/logging_example.py` (the demo script): the
simulated-error demonstration, and the `main` entry point with its
health-check fast path and exception handling.

Part 2 models the batching telemetry export pipeline that the
specification defines (Record Buffer, Batcher, Retry/Backoff Controller,
Shutdown/Flush Coordinator).  The pipeline implementation itself is not
part of the repository sources (it lives in the external OpenTelemetry
SDK, configured by the demo); those definitions are therefore modelled
from the specification text, as indicated on each one.
-/

namespace OtelLog

/-! ## Part 1: embedding of logging_example.py -/

/-- Outcome of running a piece of Python code: normal completion,
a `KeyboardInterrupt`, or an `Exception` subclass carrying a message. -/
inductive PyOutcome where
  | ok
  | keyboardInterrupt
  | exn (msg : String)
deriving DecidableEq, Repr

/-- The simulated payment-gateway call inside
`demonstrate_error_logging_with_traces` (lines 364-378): the body runs the
fixed conditional `if True:` and raises
`Exception("決済が拒否されました: 残高不足")` in that branch. -/
def call_payment_gateway : Except String Unit :=
  if true then
    Except.error "決済が拒否されました: 残高不足"
  else
    Except.ok ()

/-- The `try`/`except Exception` structure of
`demonstrate_error_logging_with_traces` (lines 362-394): the gateway call
is attempted; on an exception the `except` clause logs it (with
`exc_info=True`) and falls through, so the method completes normally. -/
def demonstrate_error_logging_with_traces : Except String Unit :=
  match call_payment_gateway with
  | Except.error _ => Except.ok ()
  | Except.ok _ => Except.ok ()

/-- What `main` observably did: its return value, and whether it entered
the `try` block that constructs a `LoggingExample` instance (and hence
initializes providers, exporters and batch processors, and runs demos). -/
structure MainOutcome where
  exitCode : Int
  attemptedConstruction : Bool
deriving DecidableEq, Repr

/-- The health-check test of `main` (line 476):
`len(sys.argv) > 1 and sys.argv[1] == "--health-check"`.  `argv` is the
full `sys.argv` list, so index 1 is the first command-line argument. -/
def isHealthCheck (argv : List String) : Bool :=
  decide (1 < argv.length) && (argv.getD 1 "" == "--health-check")

/-- The `main` function (lines 461-491).  `demoRun` is the outcome of the
code inside the `try` block: constructing `LoggingExample` and calling
`run_all_demonstrations` (which re-raises demo errors after logging
them).  `main` catches `KeyboardInterrupt` and `Exception` and maps them
to exit code 1; normal completion returns 0; the health-check branch
returns 0 before the `try` block.  The `Except` result is `.error` only
if an exception would escape `main` itself. -/
def main (argv : List String) (demoRun : PyOutcome) : Except String MainOutcome :=
  if isHealthCheck argv then
    Except.ok { exitCode := 0, attemptedConstruction := false }
  else
    match demoRun with
    | PyOutcome.ok => Except.ok { exitCode := 0, attemptedConstruction := true }
    | PyOutcome.keyboardInterrupt =>
        Except.ok { exitCode := 1, attemptedConstruction := true }
    | PyOutcome.exn _ => Except.ok { exitCode := 1, attemptedConstruction := true }

/-! ## Part 2: the batching telemetry export pipeline, modelled from the spec

The pipeline (Record Buffer, Batcher, Exporter results, Retry/Backoff
Controller, Shutdown/Flush Coordinator) is specified in spec.md sections
2-5 and 8 but its implementation is not in the repository sources: the
demo only configures the external SDK's `BatchSpanProcessor` /
`BatchLogRecordProcessor`.  All definitions below are therefore modelled
from the specification text. -/

/-- Modelled from the spec: a scalar or nested attribute value attached to
a Record ("a mapping of string keys to scalar or nested values"). -/
inductive AttrValue where
  | str (s : String)
  | int (n : Int)
  | boolVal (b : Bool)
  | nested (entries : List (String × AttrValue))

/-- Modelled from the spec: one unit of telemetry (trace span or log
entry): timestamp, severity/kind, attributes, and an optional trace/span
correlation identifier pair.  Immutable once enqueued. -/
structure Record where
  timestamp : Nat
  severity : String
  attributes : List (String × AttrValue)
  correlation : Option (Nat × Nat)

/-- Modelled from the spec: the immutable pipeline configuration — max
queue size, max batch size, export timeout, schedule delay, max retry
count, backoff base/cap (times in milliseconds). -/
structure PipelineConfig where
  maxQueueSize : Nat
  maxExportBatchSize : Nat
  exportTimeout : Nat
  scheduleDelay : Nat
  maxRetries : Nat
  backoffBase : Nat
  backoffCap : Nat

/-- Modelled from the spec: the Record Buffer — a bounded FIFO queue of
pending records, with a counter of records dropped because the buffer was
full. -/
structure RecordBuffer where
  maxQueueSize : Nat
  queue : List Record
  droppedBufferFull : Nat

/-- Modelled from the spec: an empty Record Buffer with the given
capacity. -/
def RecordBuffer.empty (cap : Nat) : RecordBuffer :=
  { maxQueueSize := cap, queue := [], droppedBufferFull := 0 }

/-- Modelled from the spec: `enqueue(record) -> bool` — non-blocking
insert at the tail; returns `false` and increments the drop counter if
the buffer is at capacity. -/
def RecordBuffer.enqueue (b : RecordBuffer) (r : Record) : RecordBuffer × Bool :=
  if b.queue.length < b.maxQueueSize then
    ({ b with queue := b.queue ++ [r] }, true)
  else
    ({ b with droppedBufferFull := b.droppedBufferFull + 1 }, false)

/-- Modelled from the spec: `drain(max_n) -> sequence of Record` —
atomically removes up to `max_n` oldest records, preserving insertion
order (FIFO). -/
def RecordBuffer.drain (b : RecordBuffer) (maxN : Nat) : RecordBuffer × List Record :=
  ({ b with queue := b.queue.drop maxN }, b.queue.take maxN)

/-- Enqueue a sequence of records one by one (as concurrent producers
would, serialized by the buffer's insert discipline). -/
def enqueueAll : RecordBuffer → List Record → RecordBuffer
  | b, [] => b
  | b, r :: rs => enqueueAll (b.enqueue r).1 rs

/-- An operation on the Record Buffer: a producer enqueue or a Batcher
drain. -/
inductive BufferOp where
  | enq (r : Record)
  | drainOp (n : Nat)

/-- Apply one buffer operation, keeping only the resulting buffer. -/
def applyOp (b : RecordBuffer) : BufferOp → RecordBuffer
  | BufferOp.enq r => (b.enqueue r).1
  | BufferOp.drainOp n => (b.drain n).1

/-- Apply a sequence of buffer operations; the states this reaches from
an empty buffer are the reachable Record Buffer states. -/
def applyOps : RecordBuffer → List BufferOp → RecordBuffer
  | b, [] => b
  | b, op :: ops => applyOps (applyOp b op) ops

/-- Modelled from the spec: a Batch — an ordered sequence of Records,
capped at the configured maximum count, assembled by the Batcher. -/
structure Batch where
  records : List Record

/-- Modelled from the spec: the Batcher's state — the buffer it drains,
and the time (ms) elapsed since the last batch was closed. -/
structure BatcherState where
  buffer : RecordBuffer
  elapsedSinceLastClose : Nat

/-- Modelled from the spec: one decision point of the Batcher's
background loop.  Two triggers close a batch: the accumulated record
count reaches max batch size, or the schedule delay has elapsed since the
last batch was closed, whichever occurs first.  On trigger it drains up
to max batch size records into a Batch; if the buffer is empty when the
timer fires, no batch is produced. -/
def batcherStep (cfg : PipelineConfig) (st : BatcherState) :
    BatcherState × Option Batch :=
  if cfg.maxExportBatchSize ≤ st.buffer.queue.length ∨
      cfg.scheduleDelay ≤ st.elapsedSinceLastClose then
    if st.buffer.queue.isEmpty then
      (st, none)
    else
      let drained := st.buffer.drain cfg.maxExportBatchSize
      ({ buffer := drained.1, elapsedSinceLastClose := 0 }, some ⟨drained.2⟩)
  else
    (st, none)

/-- Modelled from the spec: the per-batch state machine of the
Retry/Backoff Controller: `Pending -> Exporting -> {Delivered |
AwaitingRetry | Dropped}`. -/
inductive BatchState where
  | Pending
  | Exporting
  | Delivered
  | AwaitingRetry
  | Dropped
deriving DecidableEq, Repr

/-- Modelled from the spec: the outcome of one export attempt — Success,
RetryableFailure(reason), or PermanentFailure(reason). -/
inductive ExportResult where
  | success
  | retryableFailure (reason : String)
  | permanentFailure (reason : String)

/-- Modelled from the spec: the Retry Controller's bookkeeping for one
batch: its state, its retry count, and the dropped-batch counter. -/
structure BatchCtl where
  state : BatchState
  retryCount : Nat
  droppedBatches : Nat

/-- The controller state for a freshly submitted batch. -/
def BatchCtl.init : BatchCtl :=
  { state := BatchState.Pending, retryCount := 0, droppedBatches := 0 }

/-- A batch in a terminal state (Delivered or Dropped) is discarded and
never handled again. -/
def BatchCtl.terminal (c : BatchCtl) : Bool :=
  decide (c.state = BatchState.Delivered) || decide (c.state = BatchState.Dropped)

/-- Modelled from the spec: the Retry Controller's transition on one
export attempt's result.  Success goes to Delivered; PermanentFailure
goes directly to Dropped; RetryableFailure re-queues (AwaitingRetry,
retry count incremented) while the retry count is below max retries, and
otherwise goes to Dropped, incrementing the dropped-batch counter. -/
def retryStep (cfg : PipelineConfig) (c : BatchCtl) (r : ExportResult) : BatchCtl :=
  match r with
  | ExportResult.success => { c with state := BatchState.Delivered }
  | ExportResult.permanentFailure _ =>
      { c with state := BatchState.Dropped, droppedBatches := c.droppedBatches + 1 }
  | ExportResult.retryableFailure _ =>
      if c.retryCount < cfg.maxRetries then
        { c with state := BatchState.AwaitingRetry, retryCount := c.retryCount + 1 }
      else
        { c with state := BatchState.Dropped, droppedBatches := c.droppedBatches + 1 }

/-- Modelled from the spec: the Retry Controller's loop for one batch,
driven by the sequence of results the Exporter returns for successive
attempts.  A batch in a terminal state is not submitted again. -/
def runRetries (cfg : PipelineConfig) : BatchCtl → List ExportResult → BatchCtl
  | c, [] => c
  | c, r :: rs => if c.terminal then c else runRetries cfg (retryStep cfg c r) rs

/-- How many times the batch is actually submitted to the Exporter while
the controller consumes the given result sequence. -/
def countSubmissions (cfg : PipelineConfig) : BatchCtl → List ExportResult → Nat
  | _, [] => 0
  | c, r :: rs =>
      if c.terminal then 0 else 1 + countSubmissions cfg (retryStep cfg c r) rs

/-- Modelled from the spec: the exponential backoff delay before retry
attempt `attempt` — base × 2^attempt, capped at the configured maximum.
(The random jitter the spec adds to desynchronize independent pipeline
instances is a perturbation of this deterministic value and is not
modelled.) -/
def backoffDelay (cfg : PipelineConfig) (attempt : Nat) : Nat :=
  min (cfg.backoffBase * 2 ^ attempt) cfg.backoffCap

/-- Modelled from the spec: an in-flight batch at shutdown time —
how many records it holds and after how many ms its export attempt
reaches a terminal state (its export latency). -/
structure InflightBatch where
  recordCount : Nat
  deliveryLatency : Nat

/-- All in-flight exports have reached a terminal state by time `t`. -/
def allTerminalAt (t : Nat) (inflight : List InflightBatch) : Bool :=
  inflight.all (fun b => decide (b.deliveryLatency ≤ t))

/-- Total records still undelivered at time `t`. -/
def undeliveredCount (t : Nat) (inflight : List InflightBatch) : Nat :=
  ((inflight.filter (fun b => decide (t < b.deliveryLatency))).map
    InflightBatch.recordCount).sum

/-- Modelled from the spec: the Shutdown/Flush Coordinator's bounded
wait: from time `t`, wake once per ms until all in-flight exports are
terminal or the remaining budget (`fuel`) is spent; returns the time at
which shutdown proceeds. -/
def shutdownWait (inflight : List InflightBatch) (t : Nat) : Nat → Nat
  | 0 => t
  | fuel + 1 =>
      if allTerminalAt t inflight then t else shutdownWait inflight (t + 1) fuel

/-- Modelled from the spec: shutdown with timeout `T` — block up to `T`
waiting for all in-flight exports to reach a terminal state; records
still undelivered when the wait ends are counted as dropped and shutdown
proceeds.  Returns (completion time, dropped-record count). -/
def shutdownFlush (T : Nat) (inflight : List InflightBatch) : Nat × Nat :=
  let finish := shutdownWait inflight 0 T
  (finish, undeliveredCount finish inflight)

/-! ### Concrete fixtures used by the witnesses -/

/-- A sample record with a given timestamp. -/
def rec0 (i : Nat) : Record :=
  { timestamp := i, severity := "INFO",
    attributes := [("user_id", AttrValue.int 12345)], correlation := none }

/-- The configuration of the claim C2 scenarios: max batch size 5,
schedule delay 100 ms. -/
def testCfg : PipelineConfig :=
  { maxQueueSize := 2048, maxExportBatchSize := 5, exportTimeout := 30000,
    scheduleDelay := 100, maxRetries := 3, backoffBase := 10, backoffCap := 40 }

/-- Scenario (a) of claim C2: 5 records just enqueued, no time elapsed. -/
def stFive : BatcherState :=
  { buffer := { maxQueueSize := 2048,
                queue := [rec0 1, rec0 2, rec0 3, rec0 4, rec0 5],
                droppedBufferFull := 0 },
    elapsedSinceLastClose := 0 }

/-- Scenario (b) of claim C2: 2 records enqueued, 150 ms elapsed. -/
def stTwo : BatcherState :=
  { buffer := { maxQueueSize := 2048, queue := [rec0 1, rec0 2],
                droppedBufferFull := 0 },
    elapsedSinceLastClose := 150 }

/-- A full one-slot buffer, used to exercise the drop path. -/
def fullBuf : RecordBuffer :=
  { maxQueueSize := 1, queue := [rec0 1], droppedBufferFull := 0 }

/-- The controller state of a batch that has reached Delivered. -/
def deliveredCtl : BatchCtl :=
  { state := BatchState.Delivered, retryCount := 0, droppedBatches := 0 }

/-- One in-flight batch of 3 records whose export would only finish after
5 ms, used against a 2 ms shutdown timeout. -/
def inflightSample : List InflightBatch :=
  [{ recordCount := 3, deliveryLatency := 5 }]

/-! ## Part 1 theorems -/

/-- Claim C1: in every execution of `demonstrate_error_logging_with_traces`
the simulated error is raised inside the fixed conditional (the `if True:`
branch always executes and raises the exception), and the surrounding
`except` clause catches it so the method itself returns normally. -/
theorem demonstrate_error_logging_raises_and_catches :
    call_payment_gateway = Except.error "決済が拒否されました: 残高不足" ∧
    demonstrate_error_logging_with_traces = Except.ok () := by
  constructor <;> rfl

/-- Claim C9: when `main` is invoked with `--health-check` as the first
command-line argument, it returns 0 immediately without constructing a
`LoggingExample` instance, whatever the demo code would have done. -/
theorem main_health_check_fast_path :
    ∀ (prog : String) (rest : List String) (demoRun : PyOutcome),
      main (prog :: "--health-check" :: rest) demoRun =
        Except.ok { exitCode := 0, attemptedConstruction := false } := by
  intro prog rest demoRun
  simp [main, isHealthCheck]

/-- Claim C10: `main` never propagates an exception to its caller: it
returns 0 when the demo completes, and 1 whenever `KeyboardInterrupt` or
any other exception escapes `LoggingExample` construction or
`run_all_demonstrations`; on the health-check fast path nothing runs and
the exit code is 0. -/
theorem main_never_propagates :
    ∀ (argv : List String) (demoRun : PyOutcome),
      ∃ out : MainOutcome,
        main argv demoRun = Except.ok out ∧
        (out.exitCode = 0 ∨ out.exitCode = 1) ∧
        (isHealthCheck argv = false →
          (out.exitCode = 0 ↔ demoRun = PyOutcome.ok)) := by
  intro argv demoRun
  by_cases h : isHealthCheck argv
  · exact ⟨{ exitCode := 0, attemptedConstruction := false },
      by simp [main, h], Or.inl rfl, by simp [h]⟩
  · cases demoRun with
    | ok =>
        exact ⟨{ exitCode := 0, attemptedConstruction := true },
          by simp [main, h], Or.inl rfl, by simp⟩
    | keyboardInterrupt =>
        exact ⟨{ exitCode := 1, attemptedConstruction := true },
          by simp [main, h], Or.inr rfl, by simp⟩
    | exn m =>
        exact ⟨{ exitCode := 1, attemptedConstruction := true },
          by simp [main, h], Or.inr rfl, by simp⟩

/-! ## Part 2 theorems: Record Buffer -/

/-- Enqueueing never changes the configured capacity. -/
theorem enqueue_fst_maxQueueSize (b : RecordBuffer) (r : Record) :
    ((b.enqueue r).1).maxQueueSize = b.maxQueueSize := by
  unfold RecordBuffer.enqueue
  split <;> rfl

/-- Under capacity, enqueueing a sequence appends it to the queue. -/
theorem enqueueAll_queue (rs : List Record) :
    ∀ b : RecordBuffer, b.queue.length + rs.length ≤ b.maxQueueSize →
      (enqueueAll b rs).queue = b.queue ++ rs := by
  induction rs with
  | nil => intro b _; simp [enqueueAll]
  | cons r rs ih =>
      intro b h
      simp only [List.length_cons] at h
      have hlt : b.queue.length < b.maxQueueSize := by omega
      have hstep : b.enqueue r = ({ b with queue := b.queue ++ [r] }, true) := by
        unfold RecordBuffer.enqueue
        rw [if_pos hlt]
      rw [enqueueAll, hstep]
      have hrec := ih { b with queue := b.queue ++ [r] }
        (by simp only [List.length_append, List.length_cons, List.length_nil]; omega)
      rw [hrec]
      simp

/-- Claim C3: for every sequence of enqueues into the Record Buffer that
does not exceed its capacity, drain returns the records in exactly the
order they were enqueued (FIFO), removing at most `max_n` of the oldest
records and leaving the rest queued. -/
theorem drain_is_fifo (cap : Nat) (rs : List Record) (maxN : Nat)
    (h : rs.length ≤ cap) :
    ((enqueueAll (RecordBuffer.empty cap) rs).drain maxN).2 = rs.take maxN ∧
    ((enqueueAll (RecordBuffer.empty cap) rs).drain maxN).1.queue = rs.drop maxN := by
  have hq : (enqueueAll (RecordBuffer.empty cap) rs).queue = rs := by
    have := enqueueAll_queue rs (RecordBuffer.empty cap)
      (by simpa [RecordBuffer.empty] using h)
    simpa [RecordBuffer.empty] using this
  exact ⟨by simp [RecordBuffer.drain, hq], by simp [RecordBuffer.drain, hq]⟩

/-- Witness for C3 at capacity 3, records [rec0 1, rec0 2], max_n 1. -/
theorem drain_is_fifo_witness :
    ([rec0 1, rec0 2] : List Record).length ≤ 3 ∧
    (((enqueueAll (RecordBuffer.empty 3) [rec0 1, rec0 2]).drain 1).2
        = ([rec0 1, rec0 2] : List Record).take 1 ∧
     ((enqueueAll (RecordBuffer.empty 3) [rec0 1, rec0 2]).drain 1).1.queue
        = ([rec0 1, rec0 2] : List Record).drop 1) :=
  ⟨by decide, drain_is_fifo 3 [rec0 1, rec0 2] 1 (by decide)⟩

/-- A buffer operation never changes the configured capacity. -/
theorem applyOp_maxQueueSize (b : RecordBuffer) (op : BufferOp) :
    (applyOp b op).maxQueueSize = b.maxQueueSize := by
  cases op with
  | enq r => exact enqueue_fst_maxQueueSize b r
  | drainOp n => rfl

/-- A buffer operation preserves the capacity bound on the queue. -/
theorem applyOp_len_le (b : RecordBuffer) (op : BufferOp)
    (h : b.queue.length ≤ b.maxQueueSize) :
    (applyOp b op).queue.length ≤ b.maxQueueSize := by
  cases op with
  | enq r =>
      show ((b.enqueue r).1).queue.length ≤ b.maxQueueSize
      unfold RecordBuffer.enqueue
      by_cases hlt : b.queue.length < b.maxQueueSize
      · rw [if_pos hlt]
        show (b.queue ++ [r]).length ≤ b.maxQueueSize
        simp only [List.length_append, List.length_cons, List.length_nil]
        omega
      · rw [if_neg hlt]
        exact h
  | drainOp n =>
      show (b.queue.drop n).length ≤ b.maxQueueSize
      rw [List.length_drop]
      omega

/-- Sequences of buffer operations never change the capacity. -/
theorem applyOps_maxQueueSize (ops : List BufferOp) :
    ∀ b : RecordBuffer, (applyOps b ops).maxQueueSize = b.maxQueueSize := by
  induction ops with
  | nil => intro b; rfl
  | cons op ops ih => intro b; rw [applyOps, ih, applyOp_maxQueueSize]

/-- Sequences of buffer operations preserve the capacity bound. -/
theorem applyOps_len_le (ops : List BufferOp) :
    ∀ b : RecordBuffer, b.queue.length ≤ b.maxQueueSize →
      (applyOps b ops).queue.length ≤ b.maxQueueSize := by
  induction ops with
  | nil => intro b h; exact h
  | cons op ops ih =>
      intro b h
      rw [applyOps]
      have h2 := applyOp_len_le b op h
      have h3 := ih (applyOp b op) (by rw [applyOp_maxQueueSize]; exact h2)
      rwa [applyOp_maxQueueSize] at h3

/-- A full buffer stays full and counts one drop per rejected record. -/
theorem enqueueAll_full_drops (rs : List Record) :
    ∀ b : RecordBuffer, b.queue.length = b.maxQueueSize →
      (enqueueAll b rs).droppedBufferFull = b.droppedBufferFull + rs.length := by
  induction rs with
  | nil => intro b _; simp [enqueueAll]
  | cons r rs ih =>
      intro b h
      have hstep : b.enqueue r =
          ({ b with droppedBufferFull := b.droppedBufferFull + 1 }, false) := by
        unfold RecordBuffer.enqueue
        rw [if_neg (by omega)]
      rw [enqueueAll, hstep]
      have hrec := ih { b with droppedBufferFull := b.droppedBufferFull + 1 } h
      rw [hrec]
      simp only [List.length_cons]
      omega

/-- Claim C4: for every state reachable by Record Buffer operations the
queue size never exceeds the configured max queue size; an enqueue on a
full buffer returns false without blocking, leaves the queue unchanged,
and increments the drop counter — one increment per excess record. -/
theorem buffer_never_exceeds_capacity :
    (∀ (cap : Nat) (ops : List BufferOp),
        (applyOps (RecordBuffer.empty cap) ops).queue.length ≤ cap) ∧
    (∀ (b : RecordBuffer) (r : Record), b.queue.length = b.maxQueueSize →
        ((b.enqueue r).2 = false ∧ (b.enqueue r).1.queue = b.queue ∧
         (b.enqueue r).1.droppedBufferFull = b.droppedBufferFull + 1)) ∧
    (∀ (b : RecordBuffer) (rs : List Record), b.queue.length = b.maxQueueSize →
        (enqueueAll b rs).droppedBufferFull = b.droppedBufferFull + rs.length) := by
  refine ⟨?_, ?_, fun b rs h => enqueueAll_full_drops rs b h⟩
  · intro cap ops
    exact applyOps_len_le ops (RecordBuffer.empty cap) (by simp [RecordBuffer.empty])
  · intro b r h
    have hstep : b.enqueue r =
        ({ b with droppedBufferFull := b.droppedBufferFull + 1 }, false) := by
      unfold RecordBuffer.enqueue
      rw [if_neg (by omega)]
    rw [hstep]
    exact ⟨rfl, rfl, rfl⟩

/-- Witness for C4: two enqueues over capacity 1, and a rejected enqueue
on the full one-slot buffer. -/
theorem buffer_never_exceeds_capacity_witness :
    ((applyOps (RecordBuffer.empty 1)
        [BufferOp.enq (rec0 1), BufferOp.enq (rec0 2)]).queue.length ≤ 1) ∧
    ((fullBuf.enqueue (rec0 2)).2 = false ∧
     (fullBuf.enqueue (rec0 2)).1.queue = fullBuf.queue ∧
     (fullBuf.enqueue (rec0 2)).1.droppedBufferFull = fullBuf.droppedBufferFull + 1) ∧
    ((enqueueAll fullBuf [rec0 2, rec0 3]).droppedBufferFull
        = fullBuf.droppedBufferFull + ([rec0 2, rec0 3] : List Record).length) :=
  ⟨buffer_never_exceeds_capacity.1 1 _,
   buffer_never_exceeds_capacity.2.1 fullBuf (rec0 2) rfl,
   buffer_never_exceeds_capacity.2.2 fullBuf [rec0 2, rec0 3] rfl⟩

/-! ## Part 2 theorems: Batcher -/

/-- Claim C2: a batch is closed exactly when either the accumulated
record count reaches the configured max batch size or the schedule delay
has elapsed since the last batch was closed, whichever occurs first
(given records to batch — on an empty buffer the timer produces no
batch).  In particular with max batch size 5 and schedule delay 100 ms:
(a) 5 records enqueued instantly (no delay elapsed) close a batch of 5
immediately; (b) 2 records after 150 ms close a batch of 2. -/
theorem batch_closes_on_size_or_delay :
    (∀ (cfg : PipelineConfig) (st : BatcherState), st.buffer.queue ≠ [] →
        (((batcherStep cfg st).2 ≠ none) ↔
          (cfg.maxExportBatchSize ≤ st.buffer.queue.length ∨
           cfg.scheduleDelay ≤ st.elapsedSinceLastClose))) ∧
    (testCfg.maxExportBatchSize = 5 ∧ testCfg.scheduleDelay = 100 ∧
     stFive.elapsedSinceLastClose = 0 ∧
     (batcherStep testCfg stFive).2 =
        some ⟨[rec0 1, rec0 2, rec0 3, rec0 4, rec0 5]⟩) ∧
    (stTwo.buffer.queue.length = 2 ∧ stTwo.elapsedSinceLastClose = 150 ∧
     (batcherStep testCfg stTwo).2 = some ⟨[rec0 1, rec0 2]⟩) := by
  refine ⟨?_, ⟨rfl, rfl, rfl, rfl⟩, ⟨rfl, rfl, rfl⟩⟩
  intro cfg st hne
  have hempty : st.buffer.queue.isEmpty = false := by
    cases hq : st.buffer.queue with
    | nil => exact absurd hq hne
    | cons a l => simp [hq]
  constructor
  · intro hsome
    by_contra hcon
    apply hsome
    unfold batcherStep
    rw [if_neg hcon]
  · intro htrig
    unfold batcherStep
    rw [if_pos htrig, hempty]
    simp

/-- Witness for C2's trigger equivalence, at scenario (b)'s state. -/
theorem batch_closes_on_size_or_delay_witness :
    ((batcherStep testCfg stTwo).2 ≠ none) ↔
      (testCfg.maxExportBatchSize ≤ stTwo.buffer.queue.length ∨
       testCfg.scheduleDelay ≤ stTwo.elapsedSinceLastClose) :=
  batch_closes_on_size_or_delay.1 testCfg stTwo (List.cons_ne_nil _ _)

/-! ## Part 2 theorems: Retry/Backoff Controller -/

/-- A batch in a terminal state is left untouched by the retry loop. -/
theorem runRetries_of_terminal (cfg : PipelineConfig) (rs : List ExportResult)
    (c : BatchCtl) (h : c.terminal = true) : runRetries cfg c rs = c := by
  cases rs with
  | nil => rfl
  | cons r rs =>
      rw [runRetries, if_pos h]

/-- A batch in a terminal state is never submitted to the Exporter. -/
theorem countSubmissions_of_terminal (cfg : PipelineConfig)
    (rs : List ExportResult) (c : BatchCtl) (h : c.terminal = true) :
    countSubmissions cfg c rs = 0 := by
  cases rs with
  | nil => rfl
  | cons r rs =>
      rw [countSubmissions, if_pos h]

/-- The retry-loop invariant: the retry count stays within the configured
bound, and the dropped-batch counter is 1 in the Dropped state and 0
otherwise. -/
theorem runRetries_invariant (cfg : PipelineConfig) (rs : List ExportResult) :
    ∀ c : BatchCtl,
      c.retryCount ≤ cfg.maxRetries →
      c.droppedBatches = (if c.state = BatchState.Dropped then 1 else 0) →
      ((runRetries cfg c rs).retryCount ≤ cfg.maxRetries ∧
       (runRetries cfg c rs).droppedBatches =
         (if (runRetries cfg c rs).state = BatchState.Dropped then 1 else 0)) := by
  induction rs with
  | nil => intro c h1 h2; exact ⟨h1, h2⟩
  | cons r rs ih =>
      intro c h1 h2
      rw [runRetries]
      by_cases ht : c.terminal = true
      · rw [if_pos ht]; exact ⟨h1, h2⟩
      · rw [if_neg ht]
        have hnd : c.state ≠ BatchState.Dropped := by
          intro hs
          apply ht
          unfold BatchCtl.terminal
          rw [hs]
          simp
        have hc0 : c.droppedBatches = 0 := by
          rw [h2, if_neg hnd]
        apply ih
        · cases r with
          | success => exact h1
          | permanentFailure m => exact h1
          | retryableFailure m =>
              unfold retryStep
              by_cases hlt : c.retryCount < cfg.maxRetries
              · rw [if_pos hlt]; exact hlt
              · rw [if_neg hlt]; exact h1
        · cases r with
          | success => simp [retryStep, hc0]
          | permanentFailure m => simp [retryStep, hc0]
          | retryableFailure m =>
              unfold retryStep
              by_cases hlt : c.retryCount < cfg.maxRetries
              · rw [if_pos hlt]; simp [hc0]
              · rw [if_neg hlt]; simp [hc0]

/-- A batch whose retries are exhausted by retryable failures ends
Dropped: from a non-terminal Pending/AwaitingRetry state with at most `k`
retries left, `k + 1` more retryable failures reach the Dropped state. -/
theorem runRetries_exhaustion (cfg : PipelineConfig) (reason : String) :
    ∀ (k : Nat) (c : BatchCtl),
      (c.state = BatchState.Pending ∨ c.state = BatchState.AwaitingRetry) →
      cfg.maxRetries ≤ c.retryCount + k →
      (runRetries cfg c
        (List.replicate (k + 1) (ExportResult.retryableFailure reason))).state =
        BatchState.Dropped := by
  intro k
  induction k with
  | zero =>
      intro c hst hbound
      have ht : c.terminal = false := by
        unfold BatchCtl.terminal
        rcases hst with h | h <;> rw [h] <;> simp
      rw [List.replicate, runRetries, if_neg (by rw [ht]; simp)]
      have hstep : retryStep cfg c (ExportResult.retryableFailure reason) =
          { c with state := BatchState.Dropped,
                   droppedBatches := c.droppedBatches + 1 } := by
        unfold retryStep
        rw [if_neg (by omega)]
      rw [hstep]
      rfl
  | succ k ih =>
      intro c hst hbound
      have ht : c.terminal = false := by
        unfold BatchCtl.terminal
        rcases hst with h | h <;> rw [h] <;> simp
      rw [List.replicate, runRetries, if_neg (by rw [ht]; simp)]
      by_cases hlt : c.retryCount < cfg.maxRetries
      · have hstep : retryStep cfg c (ExportResult.retryableFailure reason) =
            { c with state := BatchState.AwaitingRetry,
                     retryCount := c.retryCount + 1 } := by
          unfold retryStep
          rw [if_pos hlt]
        rw [hstep]
        exact ih _ (Or.inr rfl) (by simp; omega)
      · have hstep : retryStep cfg c (ExportResult.retryableFailure reason) =
            { c with state := BatchState.Dropped,
                     droppedBatches := c.droppedBatches + 1 } := by
          unfold retryStep
          rw [if_neg hlt]
        rw [hstep]
        rw [runRetries_of_terminal]
        unfold BatchCtl.terminal
        simp

/-- Claim C5: for every batch processed by the Retry/Backoff Controller
the number of retries never exceeds the configured max retries; retries
exhausted by retryable failures send the batch to Dropped, and the batch
is Dropped exactly once — the dropped-batch counter reads 1 exactly in
the Dropped state (and never exceeds 1). -/
theorem retry_count_bounded_and_dropped_once (cfg : PipelineConfig)
    (rs : List ExportResult) (reason : String) :
    (runRetries cfg BatchCtl.init rs).retryCount ≤ cfg.maxRetries ∧
    (runRetries cfg BatchCtl.init rs).droppedBatches ≤ 1 ∧
    ((runRetries cfg BatchCtl.init rs).state = BatchState.Dropped ↔
      (runRetries cfg BatchCtl.init rs).droppedBatches = 1) ∧
    (runRetries cfg BatchCtl.init
      (List.replicate (cfg.maxRetries + 1)
        (ExportResult.retryableFailure reason))).state = BatchState.Dropped := by
  obtain ⟨h1, h2⟩ := runRetries_invariant cfg rs BatchCtl.init
    (Nat.zero_le _) (by rfl)
  refine ⟨h1, ?_, ?_, ?_⟩
  · rw [h2]
    split <;> omega
  · constructor
    · intro hs
      rw [h2, if_pos hs]
    · intro hd
      by_contra hs
      rw [h2, if_neg hs] at hd
      exact absurd hd (by omega)
  · exact runRetries_exhaustion cfg reason cfg.maxRetries BatchCtl.init
      (Or.inl rfl) (by simp [BatchCtl.init])

/-- Claim C6: for a single batch the backoff delays across successive
attempts are non-decreasing, each delay is bounded by the configured cap,
and the delay is base × 2^attempt capped at the maximum. -/
theorem backoff_monotone_and_capped (cfg : PipelineConfig) (attempt : Nat) :
    backoffDelay cfg attempt ≤ backoffDelay cfg (attempt + 1) ∧
    backoffDelay cfg attempt ≤ cfg.backoffCap ∧
    backoffDelay cfg attempt = min (cfg.backoffBase * 2 ^ attempt) cfg.backoffCap := by
  refine ⟨?_, min_le_right _ _, rfl⟩
  apply min_le_min _ le_rfl
  exact Nat.mul_le_mul_left _ (Nat.pow_le_pow_right (by omega) (Nat.le_succ _))

/-- Claim C7: a batch that has reached Delivered is never submitted to
the Exporter again — the retry loop leaves it untouched and performs zero
further submissions — and a Success result itself moves any batch to
Delivered, so none of its records is exported again after Success. -/
theorem delivered_never_resubmitted (cfg : PipelineConfig) (c : BatchCtl)
    (rs : List ExportResult) (h : c.state = BatchState.Delivered) :
    runRetries cfg c rs = c ∧ countSubmissions cfg c rs = 0 ∧
    (∀ c2 : BatchCtl,
      (retryStep cfg c2 ExportResult.success).state = BatchState.Delivered) := by
  have ht : c.terminal = true := by
    unfold BatchCtl.terminal
    rw [h]
    simp
  exact ⟨runRetries_of_terminal cfg rs c ht,
    countSubmissions_of_terminal cfg rs c ht, fun c2 => rfl⟩

/-- Witness for C7 at a concrete Delivered controller state. -/
theorem delivered_never_resubmitted_witness :
    runRetries testCfg deliveredCtl
        [ExportResult.success, ExportResult.retryableFailure "x"] = deliveredCtl ∧
    countSubmissions testCfg deliveredCtl
        [ExportResult.success, ExportResult.retryableFailure "x"] = 0 ∧
    (∀ c2 : BatchCtl,
      (retryStep testCfg c2 ExportResult.success).state = BatchState.Delivered) :=
  delivered_never_resubmitted testCfg deliveredCtl
    [ExportResult.success, ExportResult.retryableFailure "x"] rfl

/-! ## Part 2 theorems: Shutdown/Flush Coordinator -/

/-- The shutdown wait never exceeds its budget, and when it stops early
every in-flight export has reached a terminal state. -/
theorem shutdownWait_le (inflight : List InflightBatch) :
    ∀ (fuel t : Nat),
      shutdownWait inflight t fuel ≤ t + fuel ∧
      (allTerminalAt (shutdownWait inflight t fuel) inflight = true ∨
        shutdownWait inflight t fuel = t + fuel) := by
  intro fuel
  induction fuel with
  | zero =>
      intro t
      exact ⟨Nat.le_refl _, Or.inr (Nat.add_zero t).symm⟩
  | succ fuel ih =>
      intro t
      rw [shutdownWait]
      by_cases h : allTerminalAt t inflight = true
      · rw [if_pos h]
        exact ⟨by omega, Or.inl h⟩
      · rw [if_neg h]
        obtain ⟨h1, h2⟩ := ih (t + 1)
        refine ⟨by omega, ?_⟩
        rcases h2 with h2 | h2
        · exact Or.inl h2
        · exact Or.inr (by omega)

/-- Being all-terminal is monotone in time. -/
theorem allTerminalAt_mono (inflight : List InflightBatch) (s t : Nat)
    (hst : s ≤ t) (h : allTerminalAt s inflight = true) :
    allTerminalAt t inflight = true := by
  unfold allTerminalAt at h ⊢
  rw [List.all_eq_true] at h ⊢
  intro b hb
  have hbs := h b hb
  simp only [decide_eq_true_eq] at hbs ⊢
  omega

/-- Once every in-flight export is terminal, no record is undelivered. -/
theorem undeliveredCount_of_allTerminal (t : Nat) (inflight : List InflightBatch)
    (h : allTerminalAt t inflight = true) : undeliveredCount t inflight = 0 := by
  unfold undeliveredCount
  have hnil : inflight.filter (fun b => decide (t < b.deliveryLatency)) = [] := by
    rw [List.filter_eq_nil_iff]
    intro b hb
    unfold allTerminalAt at h
    rw [List.all_eq_true] at h
    have hbs := h b hb
    simp only [decide_eq_true_eq] at hbs ⊢
    omega
  rw [hnil]
  rfl

/-- Claim C8: shutdown with any in-flight batches and timeout `T`
completes within `T` regardless of export latency (it never hangs): when
everything delivers within the timeout nothing is dropped, and otherwise
shutdown proceeds exactly at `T` with every record still undelivered at
the timeout counted as dropped. -/
theorem shutdown_bounded_and_drops (T : Nat) (inflight : List InflightBatch) :
    (shutdownFlush T inflight).1 ≤ T ∧
    (allTerminalAt T inflight = true → (shutdownFlush T inflight).2 = 0) ∧
    (allTerminalAt T inflight = false →
      ((shutdownFlush T inflight).1 = T ∧
       (shutdownFlush T inflight).2 = undeliveredCount T inflight)) := by
  obtain ⟨hle, hdisj⟩ := shutdownWait_le inflight T 0
  have hle0 : shutdownWait inflight 0 T ≤ T := by omega
  refine ⟨hle0, ?_, ?_⟩
  · intro hall
    show undeliveredCount (shutdownWait inflight 0 T) inflight = 0
    rcases hdisj with hfin | hfin
    · exact undeliveredCount_of_allTerminal _ inflight hfin
    · rw [hfin]
      simp only [Nat.zero_add]
      exact undeliveredCount_of_allTerminal _ inflight hall
  · intro hnot
    have hfinT : shutdownWait inflight 0 T = T := by
      rcases hdisj with hfin | hfin
      · exact absurd (allTerminalAt_mono inflight _ T hle0 hfin)
          (by rw [hnot]; exact Bool.false_ne_true)
      · omega
    constructor
    · exact hfinT
    · show undeliveredCount (shutdownWait inflight 0 T) inflight =
        undeliveredCount T inflight
      rw [hfinT]

/-- Witness for C8: a 3-record batch with 5 ms latency against a 2 ms
shutdown timeout — shutdown proceeds at 2 ms and drops the 3 records. -/
theorem shutdown_bounded_and_drops_witness :
    allTerminalAt 2 inflightSample = false ∧
    ((shutdownFlush 2 inflightSample).1 = 2 ∧
     (shutdownFlush 2 inflightSample).2 = undeliveredCount 2 inflightSample) :=
  ⟨rfl, (shutdown_bounded_and_drops 2 inflightSample).2.2 rfl⟩

end OtelLog
